import Mathlib

/-!
Verification development for the meal-plan generation engine of a diet
backend (utakula server).  The Python source is shallowly embedded over ℚ:
`round(x, n)` (Python round-half-to-even) becomes `roundTo n`, dictionaries
become association lists, and the process-global random generator becomes an
explicitly threaded stream of naturals (`RState`).
-/

/-- Python `round` to an integer: round half to even (banker's rounding). -/
def pyRound (q : ℚ) : ℤ :=
  if q - ⌊q⌋ < 1/2 then ⌊q⌋
  else if (1 : ℚ)/2 < q - ⌊q⌋ then ⌊q⌋ + 1
  else if ⌊q⌋ % 2 = 0 then ⌊q⌋ else ⌊q⌋ + 1

/-- Python `round(q, n)`: round to `n` decimal digits, half to even. -/
def roundTo (n : ℕ) (q : ℚ) : ℚ :=
  (pyRound (q * 10 ^ n) : ℚ) / 10 ^ n

theorem pyRound_intCast (n : ℤ) : pyRound (n : ℚ) = n := by
  unfold pyRound
  norm_num

theorem abs_pyRound_sub_le (q : ℚ) : |(pyRound q : ℚ) - q| ≤ 1/2 := by
  have h1 : (⌊q⌋ : ℚ) ≤ q := Int.floor_le q
  have h2 : q < ⌊q⌋ + 1 := Int.lt_floor_add_one q
  unfold pyRound
  split_ifs with ha hb hc
  · rw [abs_sub_comm, abs_of_nonneg (by linarith)]
    linarith
  · rw [abs_of_nonneg (by push_cast; linarith)]
    push_cast
    linarith
  · have hd : q - ⌊q⌋ = 1/2 := le_antisymm (not_lt.mp hb) (not_lt.mp ha)
    rw [abs_sub_comm, abs_of_nonneg (by linarith)]
    linarith
  · have hd : q - ⌊q⌋ = 1/2 := le_antisymm (not_lt.mp hb) (not_lt.mp ha)
    rw [abs_of_nonneg (by push_cast; linarith)]
    push_cast
    linarith

theorem intCast_le_pyRound {a : ℤ} {q : ℚ} (h : (a : ℚ) ≤ q) :
    a ≤ pyRound q := by
  have h1 : a ≤ ⌊q⌋ := Int.le_floor.mpr h
  unfold pyRound
  split_ifs <;> omega

theorem pyRound_le_intCast {b : ℤ} {q : ℚ} (h : q ≤ (b : ℚ)) :
    pyRound q ≤ b := by
  have h1 : ⌊q⌋ ≤ b := by
    have := Int.floor_le_floor h
    simpa using this
  have h2 : (⌊q⌋ : ℚ) ≤ q := Int.floor_le q
  unfold pyRound
  split_ifs with ha hb hc
  · exact h1
  · have h3 : (⌊q⌋ : ℚ) + 1/2 < q := by linarith
    have h4 : (⌊q⌋ : ℚ) < b := by linarith
    have : ⌊q⌋ < b := by exact_mod_cast h4
    omega
  · exact h1
  · have hd : q - ⌊q⌋ = 1/2 := le_antisymm (not_lt.mp hb) (not_lt.mp ha)
    have h4 : (⌊q⌋ : ℚ) < b := by linarith
    have : ⌊q⌋ < b := by exact_mod_cast h4
    omega

theorem roundTo_idem (n : ℕ) (q : ℚ) : roundTo n (roundTo n q) = roundTo n q := by
  unfold roundTo
  rw [div_mul_cancel₀ _ (by positivity : (10 : ℚ) ^ n ≠ 0), pyRound_intCast]

/-! ## EnergyExpenditureCalculator (`controllers/helpers/tdee_calculator.py`) -/

namespace TDEECalculator

/-- Activity level multipliers (`ACTIVITY_MULTIPLIERS`). -/
def ACTIVITY_MULTIPLIERS : List (String × ℚ) :=
  [("sedentary", 1.2),
   ("lightly_active", 1.375),
   ("moderately_active", 1.55),
   ("very_active", 1.725),
   ("extra_active", 1.9)]

/-- `LBM = weight_kg * (1 - body_fat_percentage / 100)`; returned as computed. -/
def calculate_lean_body_mass (weight_kg body_fat_percentage : ℚ) : ℚ :=
  weight_kg * (1 - body_fat_percentage / 100)

/-- Katch-McArdle: `BMR = 370 + 21.6 * LBM`; returned as computed. -/
def calculate_bmr_katch_mcardle (lean_body_mass_kg : ℚ) : ℚ :=
  370 + 21.6 * lean_body_mass_kg

/-- `TDEE = round(BMR * multiplier, 2)`, multiplier defaulting to 1.2. -/
def calculate_tdee (weight_kg body_fat_percentage : ℚ) (activity_level : String) : ℚ :=
  let lbm := calculate_lean_body_mass weight_kg body_fat_percentage
  let bmr := calculate_bmr_katch_mcardle lbm
  let multiplier := (ACTIVITY_MULTIPLIERS.lookup activity_level).getD 1.2
  roundTo 2 (bmr * multiplier)

/-- Flat kcal adjustments per body goal (`adjustments` dict). -/
def adjustments : List (String × ℚ) :=
  [("WEIGHT_LOSS", -500), ("MUSCLE_GAIN", 400), ("MAINTENANCE", 0)]

/-- `round(tdee + adjustments.get(body_goal, 0), 2)`. -/
def adjust_for_body_goal (tdee : ℚ) (body_goal : String) : ℚ :=
  let adjustment := (adjustments.lookup body_goal).getD 0
  roundTo 2 (tdee + adjustment)

end TDEECalculator

/-- Modelled from the spec's wording for the activity-multiplier table, to be
compared with the source's dictionary lookup: named multipliers, and 1.2 for
any unrecognized activity level. -/
def spec_activity_multiplier (activity_level : String) : ℚ :=
  if activity_level = "sedentary" then 1.2
  else if activity_level = "lightly_active" then 1.375
  else if activity_level = "moderately_active" then 1.55
  else if activity_level = "very_active" then 1.725
  else if activity_level = "extra_active" then 1.9
  else 1.2

theorem activity_multiplier_agrees (a : String) :
    (TDEECalculator.ACTIVITY_MULTIPLIERS.lookup a).getD 1.2 =
      spec_activity_multiplier a := by
  by_cases h1 : a = "sedentary"
  · subst h1; rfl
  by_cases h2 : a = "lightly_active"
  · subst h2; rfl
  by_cases h3 : a = "moderately_active"
  · subst h3; rfl
  by_cases h4 : a = "very_active"
  · subst h4; rfl
  by_cases h5 : a = "extra_active"
  · subst h5; rfl
  simp [TDEECalculator.ACTIVITY_MULTIPLIERS, spec_activity_multiplier, List.lookup,
        beq_eq_false_iff_ne.mpr h1, beq_eq_false_iff_ne.mpr h2,
        beq_eq_false_iff_ne.mpr h3, beq_eq_false_iff_ne.mpr h4,
        beq_eq_false_iff_ne.mpr h5, h1, h2, h3, h4, h5]

/-! ## PortionSizeEstimator (`controllers/helpers/service_size_helper.py`) -/

namespace ServingSizeHelper

/-- Default serving sizes (grams) by macro nutrient category. -/
def SERVING_SIZES_BY_MACRO : List (String × ℕ) :=
  [("Protein", 150), ("Carbohydrate", 200), ("Fat", 15), ("Fiber", 100)]

/-- Default serving sizes (grams) by meal type (overrides macro if present). -/
def SERVING_SIZES_BY_MEAL_TYPE : List (String × ℕ) :=
  [("beverage", 250), ("fruit", 120), ("side dish", 100),
   ("breakfast or snack", 80), ("lunch or supper", 150)]

/-- Meal-type table first, then macro table, then default 100. -/
def get_typical_serving_size (macro_nutrient meal_type : String) : ℕ :=
  match SERVING_SIZES_BY_MEAL_TYPE.lookup meal_type.toLower with
  | some s => s
  | none => (SERVING_SIZES_BY_MACRO.lookup macro_nutrient).getD 100

/-- `round(grams / typical_serving, 1)`. -/
def calculate_servings (grams : ℚ) (macro_nutrient meal_type : String) : ℚ :=
  let typical_serving := get_typical_serving_size macro_nutrient meal_type
  roundTo 1 (grams / (typical_serving : ℚ))

/-- `round(servings * typical_serving, 1)`. -/
def calculate_grams_from_servings (servings : ℚ) (macro_nutrient meal_type : String) : ℚ :=
  let typical_serving := get_typical_serving_size macro_nutrient meal_type
  roundTo 1 (servings * (typical_serving : ℚ))

end ServingSizeHelper

theorem lookup_pos {l : List (String × ℕ)} (hl : ∀ p ∈ l, 0 < p.2)
    {k : String} {v : ℕ} (h : l.lookup k = some v) : 0 < v := by
  induction l with
  | nil => simp [List.lookup] at h
  | cons p rest ih =>
    obtain ⟨a, b⟩ := p
    simp only [List.lookup] at h
    cases hka : (k == a) with
    | true =>
      simp only [hka] at h
      cases h
      exact hl (a, v) (by simp)
    | false =>
      simp only [hka] at h
      exact ih (fun p hp => hl p (List.mem_cons_of_mem _ hp)) h

theorem typical_serving_pos (macro_nutrient meal_type : String) :
    0 < ServingSizeHelper.get_typical_serving_size macro_nutrient meal_type := by
  unfold ServingSizeHelper.get_typical_serving_size
  split
  · next s hs =>
    exact lookup_pos (by decide) hs
  · next hs =>
    rcases h2 : ServingSizeHelper.SERVING_SIZES_BY_MACRO.lookup macro_nutrient with _ | v
    · simp [h2]
    · simp only [h2, Option.getD_some]
      exact lookup_pos (by decide) h2

/-! ## Data model (`schemas/food_schema.py`, `schemas/meal_plan_schema.py`) -/

/-- A macro amount entry of a food's calorie breakdown. -/
structure MacroAmount where
  amount : ℚ
  deriving DecidableEq, Repr

/-- Per-100g nutrient breakdown of a food (`CalorieBreakdown`). -/
structure CalorieBreakdown where
  protein : MacroAmount
  carbohydrate : MacroAmount
  fat : MacroAmount
  fiber : MacroAmount
  deriving DecidableEq, Repr

/-- Calorie record of a food (`CalorieRead`): total kcal per 100g plus breakdown. -/
structure CalorieRead where
  total : ℚ
  breakdown : CalorieBreakdown
  deriving DecidableEq, Repr

/-- Catalogue food record (`FoodRead`). -/
structure FoodRead where
  food_id : String
  name : String
  image_url : String
  calories : CalorieRead
  dietary_tags : List String
  allergens : List String
  suitable_for_conditions : List String
  macro_nutrient : String
  meal_type : String
  deriving DecidableEq, Repr

/-- Macro nutrient breakdown of a selected portion (`MacroBreakdown`). -/
structure MacroBreakdown where
  protein_g : ℚ
  carbs_g : ℚ
  fat_g : ℚ
  fiber_g : ℚ
  deriving DecidableEq, Repr

/-- One line item of a generated meal (`SelectedFood`). -/
structure SelectedFood where
  id : String
  name : String
  image_url : String
  grams : ℚ
  servings : ℚ
  calories_per_100g : ℚ
  total_calories : ℚ
  macros : MacroBreakdown
  deriving DecidableEq, Repr

/-- The three meal buckets of one day (`MealPlan`). -/
structure MealPlan where
  breakfast : List SelectedFood
  lunch : List SelectedFood
  supper : List SelectedFood
  deriving DecidableEq, Repr

/-- One generated day (`DayPlan` dict in the source). -/
structure DayPlan where
  day : String
  meal_plan : MealPlan
  total_calories : ℚ
  total_macros : MacroBreakdown
  deriving DecidableEq, Repr

/-- Componentwise sum of two macro breakdowns. -/
def addMB (x y : MacroBreakdown) : MacroBreakdown :=
  { protein_g := x.protein_g + y.protein_g
    carbs_g := x.carbs_g + y.carbs_g
    fat_g := x.fat_g + y.fat_g
    fiber_g := x.fiber_g + y.fiber_g }

/-- The all-zero macro breakdown. -/
def mbZero : MacroBreakdown := ⟨0, 0, 0, 0⟩

/-- `occursInAux needle haystack`: does `needle` occur starting at the head? -/
def occursInAux : List Char → List Char → Bool
  | [], _ => true
  | _ :: _, [] => false
  | a :: as, b :: bs => a == b && occursInAux as bs

/-- Does `needle` occur anywhere inside `haystack`? -/
def occursIn (needle : List Char) : List Char → Bool
  | [] => needle.isEmpty
  | b :: bs => occursInAux needle (b :: bs) || occursIn needle bs

/-- Python's `sub in s` substring test on strings. -/
def strContains (s sub : String) : Bool :=
  occursIn sub.toList s.toList

/-! ## Randomness model

The source draws from Python's process-global `random` generator.  The
embedding threads an explicit stream of naturals; each primitive consumes one
draw.  `randFloat` maps a draw to a rational in `[0, 1)` with three decimal
digits of resolution. -/

/-- Explicit random source: a stream of naturals (empty stream yields 0s). -/
structure RState where
  stream : List ℕ
  deriving DecidableEq, Repr

/-- Consume one draw from the stream. -/
def nextNat : RState → ℕ × RState
  | ⟨[]⟩ => (0, ⟨[]⟩)
  | ⟨n :: rest⟩ => (n, ⟨rest⟩)

/-- Model of `random.randint(a, b)` (inclusive bounds). -/
def randint (a b : ℕ) (r : RState) : ℕ × RState :=
  let (n, r1) := nextNat r
  (a + n % (b - a + 1), r1)

/-- Model of `random.random()`: a rational in `[0, 1)`. -/
def randFloat (r : RState) : ℚ × RState :=
  let (n, r1) := nextNat r
  (((n % 1000 : ℕ) : ℚ) / 1000, r1)

/-- Model of `random.choice(xs)`: `none` only when `xs` is empty. -/
def randChoice {α : Type} (xs : List α) (r : RState) : Option α × RState :=
  let (n, r1) := nextNat r
  (xs.get? (n % xs.length), r1)

/-! ## MealAllocationEngine (`controllers/helpers/meal_plan_helpers.py`) -/

namespace MealPlanHelpers

/-- Calorie share of each meal for one body goal. -/
structure MealShares where
  breakfast : ℚ
  lunch : ℚ
  supper : ℚ
  snacks : ℚ
  deriving DecidableEq, Repr

/-- Gram ranges for main and side items for one body goal. -/
structure GramsConfig where
  main_min_grams : ℕ
  main_max_grams : ℕ
  side_min_grams : ℕ
  side_max_grams : ℕ
  deriving DecidableEq, Repr

/-- Calorie distribution percentages by body goal (`CALORIE_DISTRIBUTION`). -/
def CALORIE_DISTRIBUTION : List (String × MealShares) :=
  [("WEIGHT_LOSS", ⟨0.30, 0.35, 0.30, 0.05⟩),
   ("MUSCLE_GAIN", ⟨0.25, 0.35, 0.30, 0.10⟩),
   ("MAINTENANCE", ⟨0.30, 0.35, 0.30, 0.05⟩)]

/-- Gram ranges by body goal (`GRAMS_RANGES`). -/
def GRAMS_RANGES : List (String × GramsConfig) :=
  [("WEIGHT_LOSS", ⟨100, 200, 80, 100⟩),
   ("MUSCLE_GAIN", ⟨200, 400, 100, 200⟩),
   ("MAINTENANCE", ⟨150, 300, 80, 150⟩)]

/-- Does one food pass the three dietary checks of the filter loop? -/
def foodPasses (dietary_restrictions allergies medical_conditions : List String)
    (food : FoodRead) : Bool :=
  (dietary_restrictions.isEmpty ||
     dietary_restrictions.any (fun pref => food.dietary_tags.contains pref)) &&
  (allergies.isEmpty ||
     !(allergies.any (fun allergen => food.allergens.contains allergen))) &&
  (medical_conditions.isEmpty ||
     medical_conditions.all (fun condition => food.suitable_for_conditions.contains condition))

/-- `filter_by_dietary_requirements`: identity when no constraints, else keep
foods passing all applicable checks, in catalogue order. -/
def filter_by_dietary_requirements
    (dietary_restrictions allergies medical_conditions : List String)
    (food_list : List FoodRead) : List FoodRead :=
  if dietary_restrictions.isEmpty && allergies.isEmpty && medical_conditions.isEmpty then
    food_list
  else
    food_list.filter (foodPasses dietary_restrictions allergies medical_conditions)

/-- The five meal-type buckets built by `_categorize_foods`. -/
structure FoodCategories where
  breakfast : List FoodRead
  lunch_supper : List FoodRead
  fruits : List FoodRead
  beverages : List FoodRead
  side_dishes : List FoodRead
  deriving DecidableEq, Repr

/-- `_categorize_foods`: bucket foods by substring scan of the lower-cased
meal type; a food may land in several buckets. -/
def _categorize_foods (food_list : List FoodRead) : FoodCategories :=
  { breakfast := food_list.filter (fun f =>
      strContains f.meal_type.toLower "breakfast" || strContains f.meal_type.toLower "snack")
    lunch_supper := food_list.filter (fun f =>
      strContains f.meal_type.toLower "lunch" || strContains f.meal_type.toLower "supper")
    fruits := food_list.filter (fun f => strContains f.meal_type.toLower "fruit")
    beverages := food_list.filter (fun f => strContains f.meal_type.toLower "beverage")
    side_dishes := food_list.filter (fun f => strContains f.meal_type.toLower "side") }

/-- `_select_food_with_priority`: goal-biased random choice from a bucket. -/
def _select_food_with_priority (food_list : List FoodRead) (body_goal : String)
    (prefer_high_calorie : Bool) (r : RState) : Option FoodRead × RState :=
  if food_list.isEmpty then (none, r)
  else if body_goal = "MUSCLE_GAIN" ∧ prefer_high_calorie then
    let sorted := food_list.mergeSort (fun x y => decide (y.calories.total ≤ x.calories.total))
    let top_30_percent := max 1 (sorted.length / 3)
    randChoice (sorted.take top_30_percent) r
  else if body_goal = "WEIGHT_LOSS" ∧ ¬ prefer_high_calorie then
    let sorted := food_list.mergeSort (fun x y => decide (x.calories.total ≤ y.calories.total))
    let bottom_30_percent := max 1 (sorted.length / 3)
    randChoice (sorted.take bottom_30_percent) r
  else
    randChoice food_list r

/-- `_calculate_grams_for_calories`: grams to hit the target, clamped, with a
zero-density guard and 1-decimal rounding. -/
def _calculate_grams_for_calories (calories_per_100g target_calories min_grams max_grams : ℚ) : ℚ :=
  if calories_per_100g = 0 then min_grams
  else
    roundTo 1 (max min_grams (min ((target_calories / calories_per_100g) * 100) max_grams))

/-- `_calculate_macros_for_portion`: scale the per-reference macros, rounding
each to 1 decimal. -/
def _calculate_macros_for_portion (food : FoodRead) (grams : ℚ)
    (reference_portion_grams : ℚ := 100) : MacroBreakdown :=
  let multiplier := grams / reference_portion_grams
  let breakdown := food.calories.breakdown
  { protein_g := roundTo 1 (breakdown.protein.amount * multiplier)
    carbs_g := roundTo 1 (breakdown.carbohydrate.amount * multiplier)
    fat_g := roundTo 1 (breakdown.fat.amount * multiplier)
    fiber_g := roundTo 1 (breakdown.fiber.amount * multiplier) }

/-- `_create_selected_food`: build the `SelectedFood` line item for a portion. -/
def _create_selected_food (food : FoodRead) (grams : ℚ)
    (reference_portion_grams : ℚ := 100) : SelectedFood :=
  let calories_per_100g := food.calories.total
  let total_calories := (grams / reference_portion_grams) * calories_per_100g
  let servings := ServingSizeHelper.calculate_servings grams food.macro_nutrient food.meal_type
  let macros := _calculate_macros_for_portion food grams reference_portion_grams
  { id := food.food_id
    name := food.name
    image_url := food.image_url
    grams := grams
    servings := servings
    calories_per_100g := calories_per_100g
    total_calories := roundTo 1 total_calories
    macros := macros }

/-- Merge a duplicate selection into an existing line item (the mutation done
inside `_add_or_update_food` when the ids match). -/
def mergeFood (existing_food new_food : SelectedFood) : SelectedFood :=
  { existing_food with
    grams := existing_food.grams + new_food.grams
    servings := existing_food.servings + new_food.servings
    total_calories := existing_food.total_calories + new_food.total_calories
    macros := addMB existing_food.macros new_food.macros }

/-- `_add_or_update_food`: merge into the first entry with the same id, else
append; returns the updated meal plus the calories and macros added. -/
def _add_or_update_food : List SelectedFood → SelectedFood →
    List SelectedFood × ℚ × MacroBreakdown
  | [], new_food => ([new_food], new_food.total_calories, new_food.macros)
  | existing_food :: rest, new_food =>
    if existing_food.id = new_food.id then
      (mergeFood existing_food new_food :: rest, new_food.total_calories, new_food.macros)
    else
      let (updated, cals, macs) := _add_or_update_food rest new_food
      (existing_food :: updated, cals, macs)

end MealPlanHelpers

namespace MealPlanHelpers

/-- State accumulated while building one meal's main items:
(line items, calories, macros, remaining target, random state). -/
abbrev MainLoopState := List SelectedFood × ℚ × MacroBreakdown × ℚ × RState

/-- The `for i in range(num_main_items)` loop of each meal section: the first
argument counts the iterations still to run, so the per-item target divisor
`num_main_items - i` is `k + 1`. -/
def mainItemsLoop (bucket : List FoodRead) (body_goal : String)
    (min_grams max_grams : ℕ) :
    ℕ → List SelectedFood → ℚ → MacroBreakdown → ℚ → RState → MainLoopState
  | 0, items, cals, macs, remaining, r => (items, cals, macs, remaining, r)
  | k + 1, items, cals, macs, remaining, r =>
    let (foodOpt, r1) :=
      _select_food_with_priority bucket body_goal (body_goal == "MUSCLE_GAIN") r
    match foodOpt with
    | none => mainItemsLoop bucket body_goal min_grams max_grams k items cals macs remaining r1
    | some food =>
      let target_for_this_item := remaining / ((k : ℚ) + 1)
      let grams := _calculate_grams_for_calories food.calories.total target_for_this_item
        (min_grams : ℚ) (max_grams : ℚ)
      let selected_food := _create_selected_food food grams
      let (items1, calories_added, macros_added) := _add_or_update_food items selected_food
      mainItemsLoop bucket body_goal min_grams max_grams k
        items1 (cals + calories_added) (addMB macs macros_added)
        (remaining - calories_added) r1

/-- Result of one meal section: line items, calories, macros, random state. -/
abbrev SectionState := List SelectedFood × ℚ × MacroBreakdown × RState

/-- The `=== BREAKFAST ===` section: 1-2 main items, a beverage with
probability 0.8, and a fruit when calories are below 90% of target. -/
def breakfastSection (cat : FoodCategories) (body_goal : String) (gc : GramsConfig)
    (breakfast_target : ℚ) (r : RState) : SectionState :=
  if cat.breakfast.isEmpty then ([], 0, mbZero, r)
  else
    let (num_main_items, r1) := randint 1 2 r
    let (items1, cals1, macs1, _, r2) :=
      mainItemsLoop cat.breakfast body_goal gc.main_min_grams gc.main_max_grams
        num_main_items [] 0 mbZero breakfast_target r1
    let (items2, cals2, macs2, r3) :=
      if cat.beverages.isEmpty then (items1, cals1, macs1, r2)
      else
        let (x, ra) := randFloat r2
        if 1/5 < x then
          let (bevOpt, rb) := randChoice cat.beverages ra
          match bevOpt with
          | none => (items1, cals1, macs1, rb)
          | some beverage =>
            let (grams, rc) := randint 200 300 rb
            let selected_food := _create_selected_food beverage (grams : ℚ)
            let (items', added, madded) := _add_or_update_food items1 selected_food
            (items', cals1 + added, addMB macs1 madded, rc)
        else (items1, cals1, macs1, ra)
    if (¬ cat.fruits.isEmpty) ∧ cals2 < breakfast_target * (9/10) then
      let (fruitOpt, ra) := randChoice cat.fruits r3
      match fruitOpt with
      | none => (items2, cals2, macs2, ra)
      | some fruit =>
        let (grams, rb) := randint 100 150 ra
        let selected_food := _create_selected_food fruit (grams : ℚ)
        let (items', added, madded) := _add_or_update_food items2 selected_food
        (items', cals2 + added, addMB macs2 madded, rb)
    else (items2, cals2, macs2, r3)

/-- The `=== LUNCH ===` section: 1-2 mains from the lunch_supper bucket, a
side dish with probability 0.7, and a 250g beverage with probability 0.6. -/
def lunchSection (cat : FoodCategories) (body_goal : String) (gc : GramsConfig)
    (lunch_target : ℚ) (r : RState) : SectionState :=
  if cat.lunch_supper.isEmpty then ([], 0, mbZero, r)
  else
    let (num_main_items, r1) := randint 1 2 r
    let (items1, cals1, macs1, _, r2) :=
      mainItemsLoop cat.lunch_supper body_goal gc.main_min_grams gc.main_max_grams
        num_main_items [] 0 mbZero lunch_target r1
    let (items2, cals2, macs2, r3) :=
      if cat.side_dishes.isEmpty then (items1, cals1, macs1, r2)
      else
        let (x, ra) := randFloat r2
        if 3/10 < x then
          let (sideOpt, rb) := randChoice cat.side_dishes ra
          match sideOpt with
          | none => (items1, cals1, macs1, rb)
          | some side =>
            let (grams, rc) := randint gc.side_min_grams gc.side_max_grams rb
            let selected_food := _create_selected_food side (grams : ℚ)
            let (items', added, madded) := _add_or_update_food items1 selected_food
            (items', cals1 + added, addMB macs1 madded, rc)
        else (items1, cals1, macs1, ra)
    if cat.beverages.isEmpty then (items2, cals2, macs2, r3)
    else
      let (x, ra) := randFloat r3
      if 2/5 < x then
        let (bevOpt, rb) := randChoice cat.beverages ra
        match bevOpt with
        | none => (items2, cals2, macs2, rb)
        | some beverage =>
          let selected_food := _create_selected_food beverage (250 : ℚ)
          let (items', added, madded) := _add_or_update_food items2 selected_food
          (items', cals2 + added, addMB macs2 madded, rb)
      else (items2, cals2, macs2, ra)

/-- The `=== SUPPER ===` section: like lunch but excluding (when possible) the
food ids already picked for lunch, and without a beverage. -/
def supperSection (cat : FoodCategories) (body_goal : String) (gc : GramsConfig)
    (supper_target : ℚ) (lunch_items : List SelectedFood) (r : RState) : SectionState :=
  if cat.lunch_supper.isEmpty then ([], 0, mbZero, r)
  else
    let lunch_food_ids := lunch_items.map (fun item => item.id)
    let available0 := cat.lunch_supper.filter
      (fun f => !(lunch_food_ids.contains f.food_id))
    let available_supper_foods := if available0.isEmpty then cat.lunch_supper else available0
    let (num_main_items, r1) := randint 1 2 r
    let (items1, cals1, macs1, _, r2) :=
      mainItemsLoop available_supper_foods body_goal gc.main_min_grams gc.main_max_grams
        num_main_items [] 0 mbZero supper_target r1
    if cat.side_dishes.isEmpty then (items1, cals1, macs1, r2)
    else
      let (x, ra) := randFloat r2
      if 3/10 < x then
        let (sideOpt, rb) := randChoice cat.side_dishes ra
        match sideOpt with
        | none => (items1, cals1, macs1, rb)
        | some side =>
          let (grams, rc) := randint gc.side_min_grams gc.side_max_grams rb
          let selected_food := _create_selected_food side (grams : ℚ)
          let (items', added, madded) := _add_or_update_food items1 selected_food
          (items', cals1 + added, addMB macs1 madded, rc)
      else (items1, cals1, macs1, ra)

/-- Build one `DayPlan` (the body of the `for day_index, day in ...` loop). -/
def buildDay (day : String) (cat : FoodCategories) (body_goal : String)
    (gc : GramsConfig) (breakfast_target lunch_target supper_target : ℚ)
    (r : RState) : DayPlan × RState :=
  let (bItems, bCals, bMacs, r1) := breakfastSection cat body_goal gc breakfast_target r
  let (lItems, lCals, lMacs, r2) := lunchSection cat body_goal gc lunch_target r1
  let (sItems, sCals, sMacs, r3) :=
    supperSection cat body_goal gc supper_target lItems r2
  let day_total := bCals + lCals + sCals
  ({ day := day
     meal_plan := ⟨bItems, lItems, sItems⟩
     total_calories := roundTo 1 day_total
     total_macros :=
       { protein_g := roundTo 1 (bMacs.protein_g + lMacs.protein_g + sMacs.protein_g)
         carbs_g := roundTo 1 (bMacs.carbs_g + lMacs.carbs_g + sMacs.carbs_g)
         fat_g := roundTo 1 (bMacs.fat_g + lMacs.fat_g + sMacs.fat_g)
         fiber_g := roundTo 1 (bMacs.fiber_g + lMacs.fiber_g + sMacs.fiber_g) } }, r3)

/-- Days of the week, in generation order. -/
def days_of_the_week : List String :=
  ["Monday", "Tuesday", "Wednesday", "Thursday", "Friday", "Saturday", "Sunday"]

/-- The generation run on an already-normalized body goal: look up the
distribution and gram tables and build the 7 days in order. -/
def generateCore (food_list : List FoodRead) (daily_calorie_target : ℚ)
    (body_goal : String) (r : RState) : List DayPlan × RState :=
  let distribution := (CALORIE_DISTRIBUTION.lookup body_goal).getD ⟨0.30, 0.35, 0.30, 0.05⟩
  let grams_config := (GRAMS_RANGES.lookup body_goal).getD ⟨150, 300, 80, 150⟩
  let breakfast_target := daily_calorie_target * distribution.breakfast
  let lunch_target := daily_calorie_target * distribution.lunch
  let supper_target := daily_calorie_target * distribution.supper
  let categorized_foods := _categorize_foods food_list
  days_of_the_week.foldl
    (fun acc day =>
      let (day_plan, r') := buildDay day categorized_foods body_goal grams_config
        breakfast_target lunch_target supper_target acc.2
      (acc.1 ++ [day_plan], r'))
    (([] : List DayPlan), r)

/-- `generate_user_meal_plan`: unknown body goals fall back to MAINTENANCE,
then the full generation runs. -/
def generate_user_meal_plan (food_list : List FoodRead) (daily_calorie_target : ℚ)
    (body_goal : String) (r : RState) : List DayPlan × RState :=
  let goal :=
    if (CALORIE_DISTRIBUTION.lookup body_goal).isSome then body_goal else "MAINTENANCE"
  generateCore food_list daily_calorie_target goal r

end MealPlanHelpers

/-! ## MealPlanOrchestrator (`controllers/meal_plan_controller.py`,
`suggest_meal_plan`, modulo authentication and the database fetch) -/

/-- `BodyGoal.__members__` keys (`utils/enums.py`). -/
def bodyGoalMembers : List String := ["WEIGHT_LOSS", "MUSCLE_GAIN", "MAINTENANCE"]

/-- Request preferences (`MealPlanPreferences` schema). -/
structure MealPlanPreferences where
  body_goal : String
  dietary_restrictions : List String
  allergies : List String
  medical_conditions : List String
  daily_calorie_target : Option ℚ
  use_calculated_tdee : Bool
  deriving DecidableEq, Repr

/-- Caller-visible outcomes of `suggest_meal_plan` (HTTP errors and the
success payload collapsed to constructors). -/
inductive SuggestOutcome where
  | invalidBodyGoal
  | noUserMetrics
  | missingCalorieTarget
  | targetTooLow
  | targetTooHigh
  | noFoodsInDatabase
  | noMatchingFoods
  | success (meal_plan : List DayPlan) (calculated_tdee : Option ℚ) (target_calories : ℚ)
  deriving DecidableEq, Repr

/-- The pipeline from the resolved calorie target on: range validation, the
empty-catalogue check, dietary filtering, then allocation. -/
def suggestAfterTarget (prefs : MealPlanPreferences) (calculated_tdee : Option ℚ)
    (target_calories : ℚ) (food_list : List FoodRead) (r : RState) : SuggestOutcome :=
  if target_calories < 1200 then .targetTooLow
  else if 5000 < target_calories then .targetTooHigh
  else if food_list.isEmpty then .noFoodsInDatabase
  else
    let filtered_foods := MealPlanHelpers.filter_by_dietary_requirements
      prefs.dietary_restrictions prefs.allergies prefs.medical_conditions food_list
    if filtered_foods.isEmpty then .noMatchingFoods
    else
      .success (MealPlanHelpers.generate_user_meal_plan filtered_foods target_calories
        prefs.body_goal r).1 calculated_tdee target_calories

/-- `suggest_meal_plan` after authentication: body-goal validation, calorie
target resolution (stored TDEE or manual override; note Python's falsy test
rejects an override of exactly 0), then `suggestAfterTarget`. -/
def suggest_meal_plan (prefs : MealPlanPreferences) (user_metrics_tdee : Option ℚ)
    (food_list : List FoodRead) (r : RState) : SuggestOutcome :=
  if prefs.body_goal ∈ bodyGoalMembers then
    if prefs.use_calculated_tdee then
      match user_metrics_tdee with
      | none => .noUserMetrics
      | some calculated_tdee =>
        let target_calories :=
          TDEECalculator.adjust_for_body_goal calculated_tdee prefs.body_goal
        suggestAfterTarget prefs (some calculated_tdee) target_calories food_list r
    else
      match prefs.daily_calorie_target with
      | none => .missingCalorieTarget
      | some t =>
        if t = 0 then .missingCalorieTarget
        else suggestAfterTarget prefs none t food_list r
  else .invalidBodyGoal

/-! ## Evaluation helpers for concrete rounding facts -/

theorem roundTo_eq_of_mul_eq_int {n : ℕ} {q : ℚ} {m : ℤ} (h : q * 10 ^ n = (m : ℚ)) :
    roundTo n q = (m : ℚ) / 10 ^ n := by
  unfold roundTo
  rw [h, pyRound_intCast]

theorem pyRound_eq_of_half_lt {q : ℚ} {f : ℤ} (h1 : q < f + 1) (h2 : 1/2 < q - f) :
    pyRound q = f + 1 := by
  have hf : ⌊q⌋ = f := by
    rw [Int.floor_eq_iff]
    constructor <;> [linarith; exact_mod_cast h1]
  unfold pyRound
  rw [hf, if_neg (by linarith), if_pos h2]

theorem pyRound_eq_of_lt_half {q : ℚ} {f : ℤ} (h1 : (f : ℚ) ≤ q) (h2 : q - f < 1/2) :
    pyRound q = f := by
  have hf : ⌊q⌋ = f := by
    rw [Int.floor_eq_iff]
    exact ⟨h1, by linarith⟩
  unfold pyRound
  rw [hf, if_pos h2]

/-! ## Claim theorems -/

/-- C1: for every weight, body-fat percentage and activity-level string,
`calculate_tdee` returns `round((370 + 21.6 * (weight * (1 - bf/100))) * m, 2)`
with `m` the table multiplier (default 1.2 for unrecognized levels); at
weight 70, body fat 20% and "sedentary", lean mass is 56 kg, BMR is 1579.6 and
the TDEE is 1895.52. -/
theorem C1_calculate_tdee_formula :
    (∀ (w bf : ℚ) (a : String),
        TDEECalculator.calculate_tdee w bf a =
          roundTo 2 ((370 + 21.6 * (w * (1 - bf / 100))) * spec_activity_multiplier a)) ∧
    TDEECalculator.calculate_lean_body_mass 70 20 = 56 ∧
    TDEECalculator.calculate_bmr_katch_mcardle (TDEECalculator.calculate_lean_body_mass 70 20) =
      1579.6 ∧
    TDEECalculator.calculate_tdee 70 20 "sedentary" = 1895.52 := by
  refine ⟨fun w bf a => ?_, ?_, ?_, ?_⟩
  · simp only [TDEECalculator.calculate_tdee, TDEECalculator.calculate_lean_body_mass,
      TDEECalculator.calculate_bmr_katch_mcardle]
    rw [activity_multiplier_agrees]
  · norm_num [TDEECalculator.calculate_lean_body_mass]
  · norm_num [TDEECalculator.calculate_lean_body_mass, TDEECalculator.calculate_bmr_katch_mcardle]
  · have hm : (TDEECalculator.ACTIVITY_MULTIPLIERS.lookup "sedentary").getD 1.2 = 1.2 := rfl
    simp only [TDEECalculator.calculate_tdee, TDEECalculator.calculate_lean_body_mass,
      TDEECalculator.calculate_bmr_katch_mcardle, hm]
    rw [roundTo_eq_of_mul_eq_int (m := 189552) (by norm_num)]
    norm_num

/-- Sum of the four meal calorie-share fractions of one table row. -/
def sumShares (s : MealPlanHelpers.MealShares) : ℚ :=
  s.breakfast + s.lunch + s.supper + s.snacks

/-- C7: for each of the three body goals, the four calorie-share fractions in
`CALORIE_DISTRIBUTION` (breakfast, lunch, supper, snacks) sum to exactly 1. -/
theorem C7_calorie_distribution_sums_to_one :
    (MealPlanHelpers.CALORIE_DISTRIBUTION.lookup "WEIGHT_LOSS").map sumShares = some 1 ∧
    (MealPlanHelpers.CALORIE_DISTRIBUTION.lookup "MUSCLE_GAIN").map sumShares = some 1 ∧
    (MealPlanHelpers.CALORIE_DISTRIBUTION.lookup "MAINTENANCE").map sumShares = some 1 := by
  refine ⟨?_, ?_, ?_⟩ <;>
    · show some (sumShares _) = some 1
      norm_num [sumShares]

/-- C8 counterexample: `calculate_lean_body_mass` is NOT rounded to 2 decimal
places: at weight 70 and body fat 20.33% it returns 55.769, which differs from
its own 2-decimal rounding 55.77. -/
theorem C8_counterexample_lbm_not_rounded :
    TDEECalculator.calculate_lean_body_mass 70 20.33 ≠
      roundTo 2 (TDEECalculator.calculate_lean_body_mass 70 20.33) := by
  have h : TDEECalculator.calculate_lean_body_mass 70 20.33 = 55.769 := by
    norm_num [TDEECalculator.calculate_lean_body_mass]
  have h2 : roundTo 2 (55.769 : ℚ) = 55.77 := by
    unfold roundTo
    rw [show (55.769 : ℚ) * 10 ^ 2 = 5576.9 by norm_num,
        pyRound_eq_of_half_lt (f := 5576) (by norm_num) (by norm_num)]
    norm_num
  rw [h, h2]
  norm_num

/-- C8 amended: only the final outputs `calculate_tdee` and
`adjust_for_body_goal` are rounded to 2 decimal places (each equals its own
2-decimal rounding); the intermediate `calculate_lean_body_mass` and
`calculate_bmr_katch_mcardle` return raw unrounded values. -/
theorem C8_amended_tdee_and_adjust_rounded :
    (∀ (w bf : ℚ) (a : String),
        TDEECalculator.calculate_tdee w bf a =
          roundTo 2 (TDEECalculator.calculate_tdee w bf a)) ∧
    (∀ (t : ℚ) (g : String),
        TDEECalculator.adjust_for_body_goal t g =
          roundTo 2 (TDEECalculator.adjust_for_body_goal t g)) := by
  constructor
  · intro w bf a
    simp only [TDEECalculator.calculate_tdee]
    exact (roundTo_idem 2 _).symm
  · intro t g
    simp only [TDEECalculator.adjust_for_body_goal]
    exact (roundTo_idem 2 _).symm

/-- C4 counterexample: with `min_grams = 0 ≤ max_grams = 0.06`,
`calories_per_100g = 100` and `target_calories = 100`, the clamp yields 0.06
but the final 1-decimal rounding returns 0.1, which lies OUTSIDE
`[min_grams, max_grams]` — the claim's in-range guarantee fails as stated. -/
theorem C4_counterexample_rounding_escapes_range :
    (0 : ℚ) ≤ 0.06 ∧
    ¬ (MealPlanHelpers._calculate_grams_for_calories 100 100 0 0.06 ≤ 0.06) := by
  refine ⟨by norm_num, ?_⟩
  have h : MealPlanHelpers._calculate_grams_for_calories 100 100 0 0.06 = 0.1 := by
    unfold MealPlanHelpers._calculate_grams_for_calories
    rw [if_neg (by norm_num)]
    rw [show max (0 : ℚ) (min ((100 / 100) * 100) 0.06) = 0.06 by
          rw [min_def, max_def]; norm_num]
    unfold roundTo
    rw [show (0.06 : ℚ) * 10 ^ 1 = 3/5 by norm_num,
        pyRound_eq_of_half_lt (f := 0) (by norm_num) (by norm_num)]
    norm_num
  rw [h]
  norm_num

/-- C4 amended: whenever the gram bounds are multiples of 0.1 (as every
configured gram range is) with `min_grams ≤ max_grams`, the portion computation
returns a value in `[min_grams, max_grams]`; the division is guarded so a zero
calorie density yields exactly `min_grams`.  (The only failure of the original
claim is the final 1-decimal rounding, which can step at most 0.05 past a
bound that is not itself a multiple of 0.1.) -/
theorem C4_amended_grams_in_range (a b : ℤ) (cal target : ℚ)
    (hab : (a : ℚ) / 10 ≤ (b : ℚ) / 10) :
    (a : ℚ) / 10 ≤
        MealPlanHelpers._calculate_grams_for_calories cal target ((a : ℚ) / 10) ((b : ℚ) / 10) ∧
    MealPlanHelpers._calculate_grams_for_calories cal target ((a : ℚ) / 10) ((b : ℚ) / 10) ≤
        (b : ℚ) / 10 ∧
    (cal = 0 →
      MealPlanHelpers._calculate_grams_for_calories cal target ((a : ℚ) / 10) ((b : ℚ) / 10) =
        (a : ℚ) / 10) := by
  unfold MealPlanHelpers._calculate_grams_for_calories
  by_cases hc : cal = 0
  · rw [if_pos hc]
    exact ⟨le_refl _, hab, fun _ => rfl⟩
  · rw [if_neg hc]
    set w := max ((a : ℚ) / 10) (min ((target / cal) * 100) ((b : ℚ) / 10)) with hw
    have hw1 : (a : ℚ) / 10 ≤ w := le_max_left _ _
    have hw2 : w ≤ (b : ℚ) / 10 := max_le hab (min_le_right _ _)
    have ha' : (a : ℚ) ≤ w * 10 ^ 1 := by linarith
    have hb' : w * 10 ^ 1 ≤ (b : ℚ) := by linarith
    have h1 : (a : ℚ) ≤ (pyRound (w * 10 ^ 1) : ℚ) :=
      Int.cast_le.mpr (intCast_le_pyRound ha')
    have h2 : (pyRound (w * 10 ^ 1) : ℚ) ≤ (b : ℚ) :=
      Int.cast_le.mpr (pyRound_le_intCast hb')
    refine ⟨?_, ?_, fun h0 => absurd h0 hc⟩
    · unfold roundTo
      rw [div_le_div_iff₀ (by norm_num) (by norm_num)]
      linarith
    · unfold roundTo
      rw [div_le_div_iff₀ (by norm_num) (by norm_num)]
      linarith

/-- C4 witness: at the WEIGHT_LOSS main range 100-200 (tenths 1000/10 and
2000/10) the computed grams stay at or above the minimum. -/
theorem C4_amended_grams_in_range_witness :
    ((1000 : ℤ) : ℚ) / 10 ≤ ((2000 : ℤ) : ℚ) / 10 ∧
    ((1000 : ℤ) : ℚ) / 10 ≤
      MealPlanHelpers._calculate_grams_for_calories 100 500
        (((1000 : ℤ) : ℚ) / 10) (((2000 : ℤ) : ℚ) / 10) :=
  ⟨by norm_num, (C4_amended_grams_in_range 1000 2000 100 500 (by norm_num)).1⟩

/-- C2: with all three constraint lists empty the dietary filter is the
identity; otherwise a food appears in the output iff it is in the catalogue
and (a) some requested restriction is among its dietary tags (or none were
requested), (b) none of the requested allergens is among its allergens, and
(c) its suitable-conditions list contains every requested condition. -/
theorem C2_dietary_filter_membership (rs as cs : List String) (fl : List FoodRead) :
    ((rs = [] ∧ as = [] ∧ cs = []) →
       MealPlanHelpers.filter_by_dietary_requirements rs as cs fl = fl) ∧
    (∀ f : FoodRead,
       f ∈ MealPlanHelpers.filter_by_dietary_requirements rs as cs fl ↔
         f ∈ fl ∧
         (rs = [] ∨ ∃ p ∈ rs, p ∈ f.dietary_tags) ∧
         (as = [] ∨ ∀ al ∈ as, al ∉ f.allergens) ∧
         (cs = [] ∨ ∀ cond ∈ cs, cond ∈ f.suitable_for_conditions)) := by
  unfold MealPlanHelpers.filter_by_dietary_requirements
  by_cases hall : (rs.isEmpty && as.isEmpty && cs.isEmpty) = true
  · rw [if_pos hall]
    simp only [Bool.and_eq_true, List.isEmpty_iff] at hall
    obtain ⟨⟨hr, ha⟩, hc⟩ := hall
    subst hr; subst ha; subst hc
    exact ⟨fun _ => rfl, fun f => by simp⟩
  · rw [if_neg hall]
    refine ⟨fun h => ?_, fun f => ?_⟩
    · obtain ⟨hr, ha, hc⟩ := h
      subst hr; subst ha; subst hc
      simp at hall
    · rw [List.mem_filter]
      simp only [MealPlanHelpers.foodPasses, Bool.and_eq_true, Bool.or_eq_true,
        List.isEmpty_iff, List.any_eq_true, List.all_eq_true, Bool.not_eq_true',
        List.any_eq_false, List.elem_eq_mem, decide_eq_true_eq, decide_eq_false_iff_not]
      tauto

/-- A concrete catalogue food used by the witnesses. -/
def sampleFood : FoodRead :=
  { food_id := "food-1"
    name := "Ugali"
    image_url := "img"
    calories := ⟨110, ⟨⟨3⟩, ⟨23⟩, ⟨1/2⟩, ⟨1⟩⟩⟩
    dietary_tags := ["vegan"]
    allergens := []
    suitable_for_conditions := []
    macro_nutrient := "Carbohydrate"
    meal_type := "Lunch or Supper" }

/-- C2 witness: on a one-food catalogue, the identity case and the membership
characterization at a concrete restriction list. -/
theorem C2_dietary_filter_membership_witness :
    (([] : List String) = [] ∧ ([] : List String) = [] ∧ ([] : List String) = []) ∧
    MealPlanHelpers.filter_by_dietary_requirements [] [] [] [sampleFood] = [sampleFood] ∧
    (sampleFood ∈ MealPlanHelpers.filter_by_dietary_requirements ["vegan"] [] [] [sampleFood] ↔
      sampleFood ∈ [sampleFood] ∧
      (["vegan"] = [] ∨ ∃ p ∈ ["vegan"], p ∈ sampleFood.dietary_tags) ∧
      (([] : List String) = [] ∨ ∀ al ∈ ([] : List String), al ∉ sampleFood.allergens) ∧
      (([] : List String) = [] ∨
        ∀ cond ∈ ([] : List String), cond ∈ sampleFood.suitable_for_conditions)) :=
  ⟨⟨rfl, rfl, rfl⟩,
   (C2_dietary_filter_membership [] [] [] [sampleFood]).1 ⟨rfl, rfl, rfl⟩,
   (C2_dietary_filter_membership ["vegan"] [] [] [sampleFood]).2 sampleFood⟩

/-- C6: for positive grams and any macro category and meal type, converting
grams to (1-decimal-rounded) servings and back differs from the original by
at most half of one tenth of the typical serving size for that pair. -/
theorem C6_serving_round_trip (g : ℚ) (c t : String) (_h : 0 < g) :
    |ServingSizeHelper.calculate_grams_from_servings
        (ServingSizeHelper.calculate_servings g c t) c t - g| ≤
      (ServingSizeHelper.get_typical_serving_size c t : ℚ) / 20 := by
  have hpos : 0 < ServingSizeHelper.get_typical_serving_size c t := typical_serving_pos c t
  simp only [ServingSizeHelper.calculate_grams_from_servings,
    ServingSizeHelper.calculate_servings]
  generalize hN : ServingSizeHelper.get_typical_serving_size c t = sN at hpos ⊢
  have hsQ : (0 : ℚ) < (sN : ℚ) := by exact_mod_cast hpos
  have hne : (sN : ℚ) ≠ 0 := ne_of_gt hsQ
  unfold roundTo
  simp only [pow_one]
  have harg : ((pyRound (g / (sN : ℚ) * 10) : ℚ) / 10 * (sN : ℚ) * 10)
      = ((pyRound (g / (sN : ℚ) * 10) * (sN : ℤ) : ℤ) : ℚ) := by
    push_cast
    ring
  rw [harg, pyRound_intCast]
  have herr : |(pyRound (g / (sN : ℚ) * 10) : ℚ) - g / (sN : ℚ) * 10| ≤ 1/2 :=
    abs_pyRound_sub_le _
  have key : ((pyRound (g / (sN : ℚ) * 10) * (sN : ℤ) : ℤ) : ℚ) / 10 - g
      = ((sN : ℚ) / 10) * ((pyRound (g / (sN : ℚ) * 10) : ℚ) - g / (sN : ℚ) * 10) := by
    push_cast
    field_simp
    ring
  rw [key, abs_mul, abs_of_nonneg (by positivity : (0 : ℚ) ≤ (sN : ℚ) / 10)]
  calc (sN : ℚ) / 10 * |(pyRound (g / (sN : ℚ) * 10) : ℚ) - g / (sN : ℚ) * 10|
      ≤ (sN : ℚ) / 10 * (1/2) :=
        mul_le_mul_of_nonneg_left herr (by positivity)
    _ = (sN : ℚ) / 20 := by ring

/-- C6 witness: the round-trip bound at 100g of a Protein lunch-or-supper
item (typical serving 150g, so the tolerance is 7.5g). -/
theorem C6_serving_round_trip_witness :
    (0 : ℚ) < 100 ∧
    |ServingSizeHelper.calculate_grams_from_servings
        (ServingSizeHelper.calculate_servings 100 "Protein" "lunch or supper")
        "Protein" "lunch or supper" - 100| ≤
      (ServingSizeHelper.get_typical_serving_size "Protein" "lunch or supper" : ℚ) / 20 :=
  ⟨by norm_num, C6_serving_round_trip 100 "Protein" "lunch or supper" (by norm_num)⟩

theorem addFood_of_not_mem (meal : List SelectedFood) (nf : SelectedFood)
    (h : nf.id ∉ meal.map SelectedFood.id) :
    (MealPlanHelpers._add_or_update_food meal nf).1 = meal ++ [nf] := by
  induction meal with
  | nil => rfl
  | cons f rest ih =>
    have hne : ¬ (f.id = nf.id) := by
      intro he
      exact h (by rw [List.map_cons]; exact he ▸ List.mem_cons_self _ _)
    have h' : nf.id ∉ rest.map SelectedFood.id := by
      intro hr
      exact h (by rw [List.map_cons]; exact List.mem_cons_of_mem _ hr)
    rcases hrec : MealPlanHelpers._add_or_update_food rest nf with ⟨updated, cals, macs⟩
    have hup : updated = rest ++ [nf] := by
      have := ih h'
      rw [hrec] at this
      exact this
    simp [MealPlanHelpers._add_or_update_food, hne, hrec, hup]

theorem addFood_of_mem (meal : List SelectedFood) (nf : SelectedFood)
    (h : nf.id ∈ meal.map SelectedFood.id) :
    ∃ pre e post, meal = pre ++ e :: post ∧ e.id = nf.id ∧
      nf.id ∉ pre.map SelectedFood.id ∧
      (MealPlanHelpers._add_or_update_food meal nf).1 =
        pre ++ MealPlanHelpers.mergeFood e nf :: post := by
  induction meal with
  | nil => simp at h
  | cons f rest ih =>
    by_cases hid : f.id = nf.id
    · refine ⟨[], f, rest, by simp, hid, by simp, ?_⟩
      simp [MealPlanHelpers._add_or_update_food, hid]
    · have h' : nf.id ∈ rest.map SelectedFood.id := by
        rw [List.map_cons] at h
        rcases List.mem_cons.mp h with he | hr
        · exact absurd he.symm hid
        · exact hr
      obtain ⟨pre, e, post, hsplit, heid, hpre, hres⟩ := ih h'
      refine ⟨f :: pre, e, post, by rw [hsplit]; rfl, heid, ?_, ?_⟩
      · rw [List.map_cons]
        intro hin
        rcases List.mem_cons.mp hin with he | hr
        · exact hid he.symm
        · exact hpre hr
      · rcases hrec : MealPlanHelpers._add_or_update_food rest nf with ⟨updated, cals, macs⟩
        have hup : updated = pre ++ MealPlanHelpers.mergeFood e nf :: post := by
          rw [hrec] at hres
          exact hres
        simp [MealPlanHelpers._add_or_update_food, hid, hrec, hup]

theorem mem_split_unique {pre post : List SelectedFood} {e x : SelectedFood}
    (hnd : ((pre ++ e :: post).map SelectedFood.id).Nodup)
    (hx : x ∈ pre ++ e :: post) (hid : x.id = e.id) : x = e := by
  rw [List.map_append, List.map_cons] at hnd
  obtain ⟨hnd1, hnd2, hdis⟩ := List.nodup_append.mp hnd
  rcases List.mem_append.mp hx with hxp | hxc
  · exfalso
    have h1 : x.id ∈ pre.map SelectedFood.id := List.mem_map_of_mem _ hxp
    exact hdis (hid ▸ h1) (List.mem_cons_self _ _)
  · rcases List.mem_cons.mp hxc with he | hxpost
    · exact he
    · exfalso
      have h2 : e.id ∉ post.map SelectedFood.id := (List.nodup_cons.mp hnd2).1
      exact h2 (hid ▸ List.mem_map_of_mem _ hxpost)

/-- C3: on a meal whose line items have pairwise-distinct food ids, merging a
new selection preserves distinctness; if the id is already present the length
is unchanged and the matching entry carries the summed grams, calories and
macro fields, otherwise the selection is appended as exactly one new item. -/
theorem C3_add_or_update_food_merge (meal : List SelectedFood) (nf : SelectedFood)
    (hnd : (meal.map SelectedFood.id).Nodup) :
    ((MealPlanHelpers._add_or_update_food meal nf).1.map SelectedFood.id).Nodup ∧
    (nf.id ∈ meal.map SelectedFood.id →
      (MealPlanHelpers._add_or_update_food meal nf).1.length = meal.length ∧
      (∀ e ∈ meal, e.id = nf.id →
        ∀ e' ∈ (MealPlanHelpers._add_or_update_food meal nf).1, e'.id = nf.id →
          e'.grams = e.grams + nf.grams ∧
          e'.total_calories = e.total_calories + nf.total_calories ∧
          e'.macros.protein_g = e.macros.protein_g + nf.macros.protein_g ∧
          e'.macros.carbs_g = e.macros.carbs_g + nf.macros.carbs_g ∧
          e'.macros.fat_g = e.macros.fat_g + nf.macros.fat_g ∧
          e'.macros.fiber_g = e.macros.fiber_g + nf.macros.fiber_g)) ∧
    (nf.id ∉ meal.map SelectedFood.id →
      (MealPlanHelpers._add_or_update_food meal nf).1 = meal ++ [nf]) := by
  by_cases hmem : nf.id ∈ meal.map SelectedFood.id
  · obtain ⟨pre, e, post, hsplit, heid, hpre, hres⟩ := addFood_of_mem meal nf hmem
    have hmid : (MealPlanHelpers.mergeFood e nf).id = e.id := rfl
    have hmap : (pre ++ MealPlanHelpers.mergeFood e nf :: post).map SelectedFood.id =
        meal.map SelectedFood.id := by
      rw [hsplit]
      simp [hmid]
    refine ⟨?_, fun _ => ⟨?_, ?_⟩, fun hn => absurd hmem hn⟩
    · rw [hres, hmap]
      exact hnd
    · rw [hres, hsplit]
      simp
    · intro e1 he1 he1id e' he' he'id
      have hnd' : ((pre ++ e :: post).map SelectedFood.id).Nodup := hsplit ▸ hnd
      have he1e : e1 = e := mem_split_unique hnd' (hsplit ▸ he1) (he1id.trans heid.symm)
      have hndr : ((pre ++ MealPlanHelpers.mergeFood e nf :: post).map SelectedFood.id).Nodup := by
        rw [hmap]; exact hnd
      have he'm : e' = MealPlanHelpers.mergeFood e nf :=
        mem_split_unique hndr (hres ▸ he')
          (by rw [hmid]; exact he'id.trans heid.symm)
      subst he1e
      subst he'm
      simp [MealPlanHelpers.mergeFood, addMB]
  · have hres := addFood_of_not_mem meal nf hmem
    refine ⟨?_, fun hn => absurd hn hmem, fun _ => hres⟩
    rw [hres, List.map_append]
    refine List.Nodup.append hnd (by simp) ?_
    intro a ha hb
    simp only [List.map_cons, List.map_nil, List.mem_singleton] at hb
    subst hb
    exact hmem ha

/-- A selected food used by the C3 witness. -/
def sampleSelected1 : SelectedFood :=
  ⟨"sf-1", "Rice", "img", 100, 1/2, 130, 130, ⟨27/10, 28, 3/10, 4/10⟩⟩

/-- A second selection of the same food id, used by the C3 witness. -/
def sampleSelected2 : SelectedFood :=
  ⟨"sf-1", "Rice", "img", 50, 3/10, 130, 65, ⟨14/10, 14, 2/10, 2/10⟩⟩

/-- C3 witness: merging a duplicate of the sole entry of a one-item meal keeps
the id list duplicate-free. -/
theorem C3_add_or_update_food_merge_witness :
    (([sampleSelected1].map SelectedFood.id).Nodup) ∧
    ((MealPlanHelpers._add_or_update_food [sampleSelected1] sampleSelected2).1.map
        SelectedFood.id).Nodup :=
  ⟨by simp, (C3_add_or_update_food_merge [sampleSelected1] sampleSelected2 (by simp)).1⟩

/-- C10: any body-goal string outside the distribution table is silently
replaced by MAINTENANCE, and the entire generation then runs exactly as an
explicit MAINTENANCE request: for every catalogue, target and random stream
the outputs coincide (hence so do their distributions). -/
theorem C10_unknown_body_goal_defaults_to_maintenance (g : String)
    (h : MealPlanHelpers.CALORIE_DISTRIBUTION.lookup g = none)
    (foods : List FoodRead) (target : ℚ) (r : RState) :
    MealPlanHelpers.generate_user_meal_plan foods target g r =
      MealPlanHelpers.generate_user_meal_plan foods target "MAINTENANCE" r := by
  have hm : (MealPlanHelpers.CALORIE_DISTRIBUTION.lookup "MAINTENANCE").isSome = true := rfl
  unfold MealPlanHelpers.generate_user_meal_plan
  rw [h]
  simp only [Option.isSome_none, Bool.false_eq_true, if_false, hm, if_true]

/-- C10 witness: the unrecognized goal "BULK" generates exactly the
MAINTENANCE plan on a concrete (empty) catalogue and stream. -/
theorem C10_unknown_body_goal_defaults_to_maintenance_witness :
    MealPlanHelpers.generate_user_meal_plan [] 2000 "BULK" ⟨[]⟩ =
      MealPlanHelpers.generate_user_meal_plan [] 2000 "MAINTENANCE" ⟨[]⟩ :=
  C10_unknown_body_goal_defaults_to_maintenance "BULK" rfl [] 2000 ⟨[]⟩

/-- C5: on the manual-override path, a resolved calorie target below 1200
yields the InvalidInput outcome `targetTooLow` and one above 5000 yields
`targetTooHigh`, for EVERY catalogue and random stream (so no categorization,
selection or portion computation can influence the result); targets of
exactly 1200 or exactly 5000 are never rejected by the range check. -/
theorem C5_calorie_target_range_validation (prefs : MealPlanPreferences)
    (metrics : Option ℚ) (foods : List FoodRead) (r : RState) (t : ℚ)
    (hgoal : prefs.body_goal ∈ bodyGoalMembers)
    (hman : prefs.use_calculated_tdee = false)
    (htarget : prefs.daily_calorie_target = some t)
    (ht0 : t ≠ 0) :
    (t < 1200 → suggest_meal_plan prefs metrics foods r = SuggestOutcome.targetTooLow) ∧
    (5000 < t → suggest_meal_plan prefs metrics foods r = SuggestOutcome.targetTooHigh) ∧
    ((t = 1200 ∨ t = 5000) →
      suggest_meal_plan prefs metrics foods r ≠ SuggestOutcome.targetTooLow ∧
      suggest_meal_plan prefs metrics foods r ≠ SuggestOutcome.targetTooHigh) := by
  have hs : suggest_meal_plan prefs metrics foods r = suggestAfterTarget prefs none t foods r := by
    simp only [suggest_meal_plan, if_pos hgoal, hman, Bool.false_eq_true, if_false,
      htarget, if_neg ht0]
  refine ⟨fun h => ?_, fun h => ?_, fun h => ?_⟩
  · rw [hs]; unfold suggestAfterTarget; rw [if_pos h]
  · rw [hs]; unfold suggestAfterTarget; rw [if_neg (by linarith), if_pos h]
  · have h1 : ¬ (t < 1200) := by rcases h with h | h <;> subst h <;> norm_num
    have h2 : ¬ (5000 < t) := by rcases h with h | h <;> subst h <;> norm_num
    rw [hs]; unfold suggestAfterTarget; rw [if_neg h1, if_neg h2]
    constructor <;>
    · intro heq
      by_cases hfe : foods.isEmpty = true
      · rw [if_pos hfe] at heq
        exact absurd heq (by simp)
      · rw [if_neg hfe] at heq
        by_cases hf : (MealPlanHelpers.filter_by_dietary_requirements
            prefs.dietary_restrictions prefs.allergies
            prefs.medical_conditions foods).isEmpty = true
        · simp only [hf, if_true] at heq
          exact absurd heq (by simp)
        · simp only [Bool.not_eq_true] at hf
          simp only [hf, Bool.false_eq_true, if_false] at heq
          exact absurd heq (by simp)

/-- The end-to-end scenario B request: manual override of 500 kcal. -/
def prefsOverride500 : MealPlanPreferences :=
  ⟨"MAINTENANCE", [], [], [], some 500, false⟩

/-- C5 witness (scenario B): the 500 kcal override is rejected as too low on a
concrete request, catalogue and stream. -/
theorem C5_calorie_target_range_validation_witness :
    suggest_meal_plan prefsOverride500 none [] ⟨[]⟩ = SuggestOutcome.targetTooLow :=
  (C5_calorie_target_range_validation prefsOverride500 none [] ⟨[]⟩ 500
    (by decide) rfl rfl (by norm_num)).1 (by norm_num)

/-- C9: the [1200, 5000] range check also applies on the computed-TDEE path:
when the stored TDEE adjusted for the body goal falls below 1200 (or above
5000), the request is rejected with the same InvalidInput outcomes, again for
every catalogue and random stream. -/
theorem C9_tdee_path_also_range_validated (prefs : MealPlanPreferences) (tdee : ℚ)
    (foods : List FoodRead) (r : RState)
    (hgoal : prefs.body_goal ∈ bodyGoalMembers)
    (htdee : prefs.use_calculated_tdee = true) :
    (TDEECalculator.adjust_for_body_goal tdee prefs.body_goal < 1200 →
      suggest_meal_plan prefs (some tdee) foods r = SuggestOutcome.targetTooLow) ∧
    (5000 < TDEECalculator.adjust_for_body_goal tdee prefs.body_goal →
      suggest_meal_plan prefs (some tdee) foods r = SuggestOutcome.targetTooHigh) := by
  have hs : suggest_meal_plan prefs (some tdee) foods r =
      suggestAfterTarget prefs (some tdee)
        (TDEECalculator.adjust_for_body_goal tdee prefs.body_goal) foods r := by
    simp only [suggest_meal_plan, if_pos hgoal, htdee, if_true]
  refine ⟨fun h => ?_, fun h => ?_⟩
  · rw [hs]; unfold suggestAfterTarget; rw [if_pos h]
  · rw [hs]; unfold suggestAfterTarget; rw [if_neg (by linarith), if_pos h]

/-- A computed-TDEE request with the WEIGHT_LOSS goal. -/
def prefsTdeeWeightLoss : MealPlanPreferences :=
  ⟨"WEIGHT_LOSS", [], [], [], none, true⟩

/-- C9 witness: a stored TDEE of 1600 adjusted by WEIGHT_LOSS (-500) resolves
to 1100 and is rejected as too low. -/
theorem C9_tdee_path_also_range_validated_witness :
    suggest_meal_plan prefsTdeeWeightLoss (some 1600) [] ⟨[]⟩ =
      SuggestOutcome.targetTooLow :=
  (C9_tdee_path_also_range_validated prefsTdeeWeightLoss 1600 [] ⟨[]⟩
    (by decide) rfl).1 (by
      have hl : (TDEECalculator.adjustments.lookup "WEIGHT_LOSS").getD 0 = -500 := rfl
      have hadj : TDEECalculator.adjust_for_body_goal 1600 "WEIGHT_LOSS" = 1100 := by
        simp only [TDEECalculator.adjust_for_body_goal, hl]
        rw [roundTo_eq_of_mul_eq_int (m := 110000) (by norm_num)]
        norm_num
      show TDEECalculator.adjust_for_body_goal 1600 prefsTdeeWeightLoss.body_goal < 1200
      have hb : prefsTdeeWeightLoss.body_goal = "WEIGHT_LOSS" := rfl
      rw [hb, hadj]
      norm_num)
